import Mathlib

/-!
Verification of the session/chat/auth flow of the prompt-generator web
application (src/app.py). The Flask request handlers are embedded as pure
Lean functions over an explicit session state; external collaborators
(password hashing, the AI completion endpoint, the OAuth library) are
passed in as parameters or modelled as explicit outcome values.
-/

namespace PromptGen

/-- One role-tagged message of a transcript (a dict with keys role and text
in the source). -/
structure ChatTurn where
  role : String
  text : String
deriving Repr, DecidableEq, Inhabited

/-- The Flask session dict: the keys the source reads or writes are
user_id, username, oauth_state and chat; a missing key is `none`. -/
structure SessionState where
  user_id : Option String
  username : Option String
  oauth_state : Option String
  chat : Option (List ChatTurn)
deriving Repr, DecidableEq, Inhabited

/-- The session after session.clear(). -/
def emptySession : SessionState :=
  { user_id := none, username := none, oauth_state := none, chat := none }

/-- Observable HTTP outcome of a handler. -/
inductive HttpResponse where
  | redirect (target : String)
  | renderPage (template : String) (chat : List ChatTurn)
  | renderForm (template : String) (flashMsg : Option String)
  | notFound
  | fileAttachment (content : String) (downloadName : String) (mimetype : String)
  | serverError
deriving Repr, DecidableEq

/-- A row of the users relation (src/app.py class User); password is the
stored hash, `none` for OAuth-only accounts. -/
structure UserRec where
  username : String
  email : String
  password : Option String
deriving Repr, DecidableEq, Inhabited

/-- PROJECT_KEYWORDS of src/app.py lines 76-80. -/
def PROJECT_KEYWORDS : List String :=
  ["project", "app", "application", "website", "system",
   "platform", "tool", "software", "ai", "ml",
   "build", "create", "develop", "design"]

/-- Python str.lower(), embedded as a character-wise lowercase map over
the text. -/
def pyLower (s : String) : String := String.mk (s.data.map Char.toLower)

/-- Python str.strip(): drop whitespace from both ends of the text. -/
def pyStrip (s : String) : String :=
  String.mk
    (((s.data.dropWhile Char.isWhitespace).reverse.dropWhile Char.isWhitespace).reverse)

/-- charsBeginWith n h decides whether the char list h starts with n
(the positional check underlying the Python substring operator). -/
def charsBeginWith : List Char → List Char → Bool
  | [], _ => true
  | _ :: _, [] => false
  | a :: as, b :: bs => a == b && charsBeginWith as bs

/-- charsContain n h decides whether n occurs contiguously inside h:
the Python expression n in h on strings. -/
def charsContain (n : List Char) : List Char → Bool
  | [] => charsBeginWith n []
  | c :: t => charsBeginWith n (c :: t) || charsContain n t

/-- is_project_related of src/app.py lines 82-84: lowercase the text, then
test each keyword for substring occurrence. -/
def is_project_related (text : String) : Bool :=
  PROJECT_KEYWORDS.any (fun word => charsContain word.data (pyLower text).data)

theorem charsBeginWith_iff (n h : List Char) :
    charsBeginWith n h = true ↔ ∃ post, h = n ++ post := by
  induction n generalizing h with
  | nil => simp [charsBeginWith]
  | cons a as ih =>
    cases h with
    | nil => simp [charsBeginWith]
    | cons b bs =>
      simp only [charsBeginWith, Bool.and_eq_true, beq_iff_eq, ih, List.cons_append,
        List.cons.injEq]
      constructor
      · rintro ⟨rfl, post, rfl⟩
        exact ⟨post, rfl, rfl⟩
      · rintro ⟨post, rfl, rfl⟩
        exact ⟨rfl, post, rfl⟩

theorem charsContain_iff (n h : List Char) :
    charsContain n h = true ↔ ∃ pre post, h = pre ++ n ++ post := by
  induction h with
  | nil =>
    simp only [charsContain, charsBeginWith_iff]
    constructor
    · rintro ⟨post, hpost⟩
      exact ⟨[], post, by simpa using hpost⟩
    · rintro ⟨pre, post, hp⟩
      refine ⟨post, ?_⟩
      have hpre : pre = [] := by
        cases pre with
        | nil => rfl
        | cons x xs => simp at hp
      subst hpre
      simpa using hp
  | cons c t ih =>
    simp only [charsContain, Bool.or_eq_true, charsBeginWith_iff, ih]
    constructor
    · rintro (⟨post, hpost⟩ | ⟨pre, post, hp⟩)
      · exact ⟨[], post, by simpa using hpost⟩
      · exact ⟨c :: pre, post, by simp [hp]⟩
    · rintro ⟨pre, post, hp⟩
      cases pre with
      | nil =>
        left
        exact ⟨post, by simpa using hp⟩
      | cons x xs =>
        right
        simp only [List.cons_append, List.cons.injEq] at hp
        exact ⟨xs, post, hp.2⟩

/-- The synthetic assistant greeting installed by GET / (src/app.py
lines 213-223). -/
def greetingText : String :=
  "Hi! 👋\n\nI am MICO Prompt Generator.\nGive me your project idea and I will generate:\n- A professional AI prompt\n- Clear project requirements"

def greetingTurn : ChatTurn := { role := "assistant", text := greetingText }

/-- The fixed refusal reply for out-of-scope messages (src/app.py
lines 232-239). -/
def refusalText : String :=
  "Thank you for your message.\n\nI am a dedicated AI Prompt Generator and can only assist with converting project ideas into professional AI prompts and structured requirements.\n\nPlease share a valid project idea such as an app, website, AI tool, or software system."

/-- The distinct quota-exhaustion reply (src/app.py line 273). -/
def quotaMessage : String :=
  "⚠️ Daily API quota reached. Please try again tomorrow or upgrade your plan."

/-- The fixed instruction template wrapped around an in-scope idea
(src/app.py lines 244-259). -/
def buildPrompt (query : String) : String :=
  "\nYou are a professional AI prompt engineer.\n\nConvert the following project idea into:\n1. A clear AI-understandable prompt\n2. A structured list of project requirements\n\nProject Idea:\n"
    ++ query
    ++ "\n\nOutput Format:\nPrompt:\nRequirements:\n- Requirement 1\n- Requirement 2\n"

/-- The decoded JSON body of a Gemini response, reduced to the fields the
handler reads: the texts of the candidates (the handler only uses the
first) and error.status when present. -/
structure GeminiResponse where
  candidates : List String
  errorStatus : Option String
deriving Repr, DecidableEq

/-- Outcome of the requests.post call plus JSON decoding and candidate
extraction: either the whole try block raised (timeout, network failure,
malformed body) with the exception text, or a decoded response. -/
inductive AIOutcome where
  | exn (message : String)
  | ok (res : GeminiResponse)
deriving Repr, DecidableEq

/-- The reply string the handler derives from the AI call (src/app.py
lines 265-277): first candidate if any, else the quota message on
RESOURCE_EXHAUSTED, else a generic error string; a raised exception is
caught and also becomes a generic error string. -/
def aiReply : AIOutcome → String
  | .exn e => "Error generating response: " ++ e
  | .ok res =>
    match res.candidates with
    | r :: _ => r
    | [] =>
      if res.errorStatus = some "RESOURCE_EXHAUSTED" then quotaMessage
      else "Error generating response: " ++ reprStr res

/-- GET / (src/app.py lines 208-223 and 282): redirect to /login when
unauthenticated, otherwise replace session chat with the single greeting
turn and render it. -/
def index_get (s : SessionState) : SessionState × HttpResponse :=
  if s.user_id.isNone then (s, .redirect "/login")
  else
    let s2 := { s with chat := some [greetingTurn] }
    (s2, .renderPage "index.html" (s2.chat.getD []))

/-- POST / (src/app.py lines 208-211 and 225-282). The third component
records whether the AI Completion Client was invoked. A POST whose session
lacks the chat key raises KeyError at session[chat].append, which
surfaces as a 500. -/
def index_post (s : SessionState) (rawQuery : String) (ai : AIOutcome) :
    SessionState × HttpResponse × Bool :=
  if s.user_id.isNone then (s, .redirect "/login", false)
  else
    let query := pyStrip rawQuery
    if query = "" then (s, .renderPage "index.html" (s.chat.getD []), false)
    else
      match s.chat with
      | none => (s, .serverError, false)
      | some chat0 =>
        let chat1 := chat0 ++ [{ role := "user", text := query }]
        if is_project_related query = false then
          let chat2 := chat1 ++ [{ role := "assistant", text := refusalText }]
          ({ s with chat := some chat2 }, .renderPage "index.html" chat2, false)
        else
          let chat2 := chat1 ++ [{ role := "assistant", text := aiReply ai }]
          ({ s with chat := some chat2 }, .renderPage "index.html" chat2, true)

/-- GET /logout (src/app.py lines 134-137): session.clear() then redirect
to /login. -/
def logout (_s : SessionState) : SessionState × HttpResponse :=
  (emptySession, .redirect "/login")

/-- GET /download/idx/txt (src/app.py lines 288-301). The index arrives
as an Int to cover the negative-index guard in the source. -/
def download_txt_by_index (s : SessionState) (idx : Int) : HttpResponse :=
  match s.chat with
  | none => .notFound
  | some chat =>
    if chat.isEmpty || decide (idx < 0) || decide ((chat.length : Int) ≤ idx) then .notFound
    else .fileAttachment (chat.getD idx.toNat default).text "prompt_output.txt" "text/plain"

/-- GET /download/idx/pdf (src/app.py lines 307-331): same guard; the PDF
body is a single paragraph built from the turn text with newlines turned
into br tags. -/
def download_pdf_by_index (s : SessionState) (idx : Int) : HttpResponse :=
  match s.chat with
  | none => .notFound
  | some chat =>
    if chat.isEmpty || decide (idx < 0) || decide ((chat.length : Int) ≤ idx) then .notFound
    else
      .fileAttachment ((chat.getD idx.toNat default).text.replace "\n" "<br/>")
        "prompt_output.pdf" "application/pdf"

/-- Outcome of the POST branch of /signup. -/
inductive SignupResult where
  | alreadyLoggedIn
  | duplicate
  | created (u : UserRec)
deriving Repr, DecidableEq

/-- POST /signup (src/app.py lines 89-110), parameterised by the password
hash function. Returns the users relation after the request and the
outcome. The only rejection of form data is the duplicate query on
username OR email; no emptiness check exists in the source. -/
def signup (hash : String → String) (users : List UserRec) (s : SessionState)
    (username email password : String) : List UserRec × SignupResult :=
  if s.user_id.isSome then (users, .alreadyLoggedIn)
  else
    let username := pyStrip username
    let email := pyStrip email
    let password := pyStrip password
    if users.any (fun u => u.username == username || u.email == email) then
      (users, .duplicate)
    else
      let u : UserRec := { username := username, email := email, password := some (hash password) }
      (users ++ [u], .created u)

/-- Outcome of the POST branch of /login. -/
inductive LoginResult where
  | alreadyLoggedIn
  | success (username : String)
  | invalid
deriving Repr, DecidableEq

/-- POST /login (src/app.py lines 113-131), parameterised by the werkzeug
check_password_hash function (stored hash, submitted password). On the
single success path the session is cleared and rebound; every failure
path leaves the session untouched and flashes the one uniform message. -/
def login (checkHash : String → String → Bool) (users : List UserRec)
    (s : SessionState) (email password : String) : SessionState × LoginResult :=
  if s.user_id.isSome then (s, .alreadyLoggedIn)
  else
    let email := pyStrip email
    let password := pyStrip password
    match users.find? (fun u => u.email == email) with
    | some u =>
      match u.password with
      | some pw =>
        if checkHash pw password then
          ({ user_id := some u.email, username := some u.username,
             oauth_state := none, chat := none }, .success u.username)
        else (s, .invalid)
      | none => (s, .invalid)
    | none => (s, .invalid)

/-- Identity payload returned by the provider userinfo endpoint. -/
structure UserInfo where
  email_verified : Bool
  email : String
  name : Option String
deriving Repr, DecidableEq

/-- Outcome of GET /auth/callback. -/
inductive CallbackResult where
  | stateRejected
  | unverifiedEmail
  | success (username : String)
deriving Repr, DecidableEq

/-- Modelled from the spec: the anti-forgery state validation is not in
src/app.py itself — it happens inside the requests_oauthlib fetch_token
call (src/app.py lines 171-183), which compares the state stored in the
session against the state the provider echoes back in the callback URL
and aborts the exchange on absence or mismatch. Per the spec invariant,
oauth_state must be present and must match what the identity provider
echoes back, or the callback is rejected. The rest is src/app.py lines
185-203: verified-email check, look-up-or-create by email, session
rebind. -/
def google_callback (users : List UserRec) (s : SessionState)
    (returnedState : String) (userinfo : UserInfo) :
    List UserRec × SessionState × CallbackResult :=
  match s.oauth_state with
  | none => (users, s, .stateRejected)
  | some st =>
    if st ≠ returnedState then (users, s, .stateRejected)
    else if userinfo.email_verified = false then (users, s, .unverifiedEmail)
    else
      let username := userinfo.name.getD (((userinfo.email.splitOn "@").headD ""))
      match users.find? (fun u => u.email == userinfo.email) with
      | some u =>
        (users,
         { user_id := some u.email, username := some u.username,
           oauth_state := none, chat := none }, .success u.username)
      | none =>
        let u : UserRec := { username := username, email := userinfo.email, password := none }
        (users ++ [u],
         { user_id := some u.email, username := some u.username,
           oauth_state := none, chat := none }, .success u.username)

/-- A string of the generic error shape never equals the quota message:
the quota message does not start with the letter E. -/
theorem genericError_ne_quota (x : String) :
    "Error generating response: " ++ x ≠ quotaMessage := by
  intro h
  have h2 : ("Error generating response: " ++ x).data.head? = quotaMessage.data.head? :=
    congrArg (fun s : String => s.data.head?) h
  rw [String.data_append] at h2
  simp [quotaMessage] at h2

/-- The failure shapes of the AI call the handler recovers from: a raised
exception, or a decoded body with no usable candidate. -/
def aiCallFailed : AIOutcome → Prop
  | .exn _ => True
  | .ok res => res.candidates = []

/-- C3: is_project_related text is true exactly when the lowercased text
contains one of the fixed PROJECT_KEYWORDS as a contiguous substring. -/
theorem C3_is_project_related_iff (text : String) :
    is_project_related text = true ↔
      ∃ w ∈ PROJECT_KEYWORDS, ∃ pre post : List Char,
        (pyLower text).data = pre ++ w.data ++ post := by
  simp only [is_project_related, List.any_eq_true, charsContain_iff]

/-- Witness for C3 at a concrete in-scope input. -/
theorem C3_witness :
    ∃ w ∈ PROJECT_KEYWORDS, ∃ pre post : List Char,
      (pyLower "Build a website for a bakery").data = pre ++ w.data ++ post :=
  (C3_is_project_related_iff "Build a website for a bakery").mp (by decide)

/-- C1 counterexample: rendering GET / does not leave an existing
transcript unchanged — on a session holding a two-turn transcript the
handler replaces it with the single greeting turn. -/
theorem C1_counterexample :
    ((index_get { user_id := some "u1", username := some "alice", oauth_state := none,
                  chat := some [greetingTurn, { role := "user", text := "hi" }] }).1).chat
      ≠ some [greetingTurn, { role := "user", text := "hi" }] := by
  simp [index_get]

/-- C1 amended: for an authenticated session, GET / replaces the
transcript with the single greeting turn (it does not preserve it),
logout clears it, and message submission of a non-empty message only
extends the existing transcript by appended turns. -/
theorem C1_transcript_lifecycle (s : SessionState) (uid : String)
    (hauth : s.user_id = some uid) :
    ((index_get s).1).chat = some [greetingTurn]
    ∧ (logout s).1.chat = none
    ∧ ∀ chat0 rawQuery ai, s.chat = some chat0 → pyStrip rawQuery ≠ "" →
        ∃ reply : String,
          ((index_post s rawQuery ai).1).chat
            = some (chat0 ++ [{ role := "user", text := pyStrip rawQuery },
                              { role := "assistant", text := reply }]) := by
  refine ⟨by simp [index_get, hauth], rfl, ?_⟩
  intro chat0 rawQuery ai hchat hne
  by_cases hrel : is_project_related (pyStrip rawQuery) = false
  · exact ⟨refusalText, by simp [index_post, hauth, hchat, hne, hrel]⟩
  · exact ⟨aiReply ai, by simp [index_post, hauth, hchat, hne, hrel]⟩

/-- Witness for C1 amended at a concrete authenticated session. -/
theorem C1_witness :
    ((index_get { user_id := some "u1", username := some "alice", oauth_state := none,
                  chat := some [] }).1).chat = some [greetingTurn] :=
  (C1_transcript_lifecycle _ "u1" rfl).1

/-- C2 counterexample: an unauthenticated request to the txt download
route receives a 404, not a redirect to /login. -/
theorem C2_counterexample :
    download_txt_by_index emptySession 0 = HttpResponse.notFound
    ∧ download_txt_by_index emptySession 0 ≠ HttpResponse.redirect "/login" := by
  constructor
  · rfl
  · decide

/-- C2 amended: unauthenticated access to / (GET or POST) redirects to
/login; the download routes perform no authentication check and answer
404 whenever the session carries no transcript, which holds for every
unauthenticated session that never passed through the index handler. -/
theorem C2_unauthenticated_access (s : SessionState) (rawQuery : String)
    (ai : AIOutcome) (idx : Int) (hanon : s.user_id = none) :
    (index_get s).2 = .redirect "/login"
    ∧ (index_post s rawQuery ai).2.1 = .redirect "/login"
    ∧ (s.chat = none →
        download_txt_by_index s idx = .notFound
        ∧ download_pdf_by_index s idx = .notFound) := by
  refine ⟨by simp [index_get, hanon], by simp [index_post, hanon], ?_⟩
  intro hchat
  exact ⟨by simp [download_txt_by_index, hchat], by simp [download_pdf_by_index, hchat]⟩

/-- Witness for C2 amended at the empty session. -/
theorem C2_witness :
    (index_get emptySession).2 = HttpResponse.redirect "/login" :=
  (C2_unauthenticated_access emptySession "" (.exn "") 0 rfl).1

/-- C4: submitting a non-empty out-of-scope message appends exactly the
user turn followed by the fixed refusal turn, and the AI Completion
Client is not invoked, whatever it would have answered. -/
theorem C4_out_of_scope_refusal (s : SessionState) (uid : String)
    (chat0 : List ChatTurn) (rawQuery : String) (ai : AIOutcome)
    (hauth : s.user_id = some uid) (hchat : s.chat = some chat0)
    (hne : pyStrip rawQuery ≠ "")
    (hscope : is_project_related (pyStrip rawQuery) = false) :
    index_post s rawQuery ai =
      ({ s with chat := some (chat0 ++ [{ role := "user", text := pyStrip rawQuery },
                                        { role := "assistant", text := refusalText }]) },
       .renderPage "index.html"
         (chat0 ++ [{ role := "user", text := pyStrip rawQuery },
                    { role := "assistant", text := refusalText }]),
       false) := by
  simp [index_post, hauth, hchat, hne, hscope]

/-- Witness for C4: the out-of-scope message used in the spec test
vignette, against a session holding only the greeting. -/
theorem C4_witness :
    index_post { user_id := some "u1", username := some "alice", oauth_state := none,
                 chat := some [greetingTurn] } "hello there" (.exn "boom") =
      ({ user_id := some "u1", username := some "alice", oauth_state := none,
         chat := some [greetingTurn, { role := "user", text := "hello there" },
                       { role := "assistant", text := refusalText }] },
       .renderPage "index.html"
         [greetingTurn, { role := "user", text := "hello there" },
          { role := "assistant", text := refusalText }],
       false) :=
  C4_out_of_scope_refusal _ "u1" [greetingTurn] "hello there" (.exn "boom")
    rfl rfl (by decide) (by decide)

/-- C5: when an in-scope non-empty message meets a failing AI call
(raised exception or a body without candidates), the handler still
returns a rendered page — never an escaping exception — with exactly a
user turn and an assistant error turn appended; among bodies without
candidates the reply is the distinct quota message exactly when the
provider reported status RESOURCE_EXHAUSTED, and a caught exception never
yields the quota message. -/
theorem C5_ai_failure_turn (s : SessionState) (uid : String)
    (chat0 : List ChatTurn) (rawQuery : String) (ai : AIOutcome)
    (hauth : s.user_id = some uid) (hchat : s.chat = some chat0)
    (hne : pyStrip rawQuery ≠ "")
    (hscope : is_project_related (pyStrip rawQuery) = true)
    (hfail : aiCallFailed ai) :
    index_post s rawQuery ai =
      ({ s with chat := some (chat0 ++ [{ role := "user", text := pyStrip rawQuery },
                                        { role := "assistant", text := aiReply ai }]) },
       .renderPage "index.html"
         (chat0 ++ [{ role := "user", text := pyStrip rawQuery },
                    { role := "assistant", text := aiReply ai }]),
       true)
    ∧ (∀ res, ai = .ok res →
        (aiReply ai = quotaMessage ↔ res.errorStatus = some "RESOURCE_EXHAUSTED"))
    ∧ (∀ e, ai = .exn e → aiReply ai ≠ quotaMessage) := by
  refine ⟨by simp [index_post, hauth, hchat, hne, hscope], ?_, ?_⟩
  · rintro res rfl
    have hcand : res.candidates = [] := hfail
    constructor
    · intro hq
      by_contra hst
      simp only [aiReply, hcand, if_neg hst] at hq
      exact genericError_ne_quota _ hq
    · intro hst
      simp [aiReply, hcand, hst]
  · rintro e rfl
    exact genericError_ne_quota e

/-- Witness for C5: an in-scope message meeting a quota-exhausted reply
body appends the distinct quota turn. -/
theorem C5_witness :
    index_post { user_id := some "u1", username := some "alice", oauth_state := none,
                 chat := some [greetingTurn] } "Build a website"
        (.ok { candidates := [], errorStatus := some "RESOURCE_EXHAUSTED" }) =
      ({ user_id := some "u1", username := some "alice", oauth_state := none,
         chat := some [greetingTurn, { role := "user", text := "Build a website" },
                       { role := "assistant", text := quotaMessage }] },
       .renderPage "index.html"
         [greetingTurn, { role := "user", text := "Build a website" },
          { role := "assistant", text := quotaMessage }],
       true) :=
  (C5_ai_failure_turn _ "u1" [greetingTurn] "Build a website"
      (.ok { candidates := [], errorStatus := some "RESOURCE_EXHAUSTED" })
      rfl rfl (by decide) (by decide) rfl).1

/-- C6 counterexample: signup with username, email and password all empty
after trimming is not rejected — against an empty users relation it
creates a user record with empty fields. -/
theorem C6_counterexample :
    signup (fun p => "h:" ++ p) [] emptySession "" "" ""
      = ([{ username := "", email := "", password := some "h:" }],
         SignupResult.created { username := "", email := "", password := some "h:" }) := by
  rfl

/-- C6 amended: signup performs no emptiness validation; whenever neither
the trimmed username nor the trimmed email collides with an existing
user, a user record is created — even when username, email or password is
empty after trimming — and rejection of form data happens only on such a
collision. -/
theorem C6_no_emptiness_validation (hash : String → String) (users : List UserRec)
    (s : SessionState) (username email password : String)
    (hanon : s.user_id = none)
    (hnodup : users.any
      (fun u => u.username == pyStrip username || u.email == pyStrip email) = false) :
    signup hash users s username email password
      = (users ++ [{ username := pyStrip username, email := pyStrip email,
                     password := some (hash (pyStrip password)) }],
         .created { username := pyStrip username, email := pyStrip email,
                    password := some (hash (pyStrip password)) }) := by
  simp [signup, hanon, hnodup]

/-- Witness for C6 amended: a fresh signup against an empty relation. -/
theorem C6_witness :
    signup (fun p => "h:" ++ p) [] emptySession "bob" "b@x.com" "pw"
      = ([{ username := "bob", email := "b@x.com", password := some "h:pw" }],
         SignupResult.created
           { username := "bob", email := "b@x.com", password := some "h:pw" }) :=
  C6_no_emptiness_validation (fun p => "h:" ++ p) [] emptySession "bob" "b@x.com" "pw"
    rfl (by decide)

/-- C10: signup is rejected with the duplicate outcome, creating no user,
whenever some existing user already carries the submitted trimmed
username — the submitted email may be entirely fresh. -/
theorem C10_duplicate_username_rejected (hash : String → String) (users : List UserRec)
    (s : SessionState) (username email password : String)
    (hanon : s.user_id = none)
    (hdup : ∃ u ∈ users, u.username = pyStrip username) :
    signup hash users s username email password = (users, .duplicate) := by
  obtain ⟨u, hu, hname⟩ := hdup
  have hany : users.any
      (fun v => v.username == pyStrip username || v.email == pyStrip email) = true := by
    refine List.any_eq_true.mpr ⟨u, hu, ?_⟩
    simp [hname]
  simp [signup, hanon, hany]

/-- Witness for C10: a taken username paired with a fresh email is still
rejected and the users relation is unchanged. -/
theorem C10_witness :
    signup (fun p => "h:" ++ p)
        [{ username := "bob", email := "old@x.com", password := some "h:pw" }]
        emptySession "bob" "new@x.com" "secret"
      = ([{ username := "bob", email := "old@x.com", password := some "h:pw" }],
         SignupResult.duplicate) :=
  C10_duplicate_username_rejected (fun p => "h:" ++ p)
    [{ username := "bob", email := "old@x.com", password := some "h:pw" }]
    emptySession "bob" "new@x.com" "secret" rfl
    ⟨{ username := "bob", email := "old@x.com", password := some "h:pw" },
     by decide, by decide⟩

/-- C7: when the session carries no oauth_state, or it differs from the
state the provider echoes back, the callback is rejected: the users
relation is untouched (no user created or loaded) and the session is
unchanged (no identity established). -/
theorem C7_callback_state_check (users : List UserRec) (s : SessionState)
    (returnedState : String) (userinfo : UserInfo)
    (hbad : s.oauth_state = none ∨ s.oauth_state ≠ some returnedState) :
    google_callback users s returnedState userinfo = (users, s, .stateRejected) := by
  cases ho : s.oauth_state with
  | none => simp [google_callback, ho]
  | some st =>
    have hne : st ≠ returnedState := by
      rcases hbad with h | h
      · rw [ho] at h
        cases h
      · rw [ho] at h
        intro he
        exact h (by rw [he])
    simp [google_callback, ho, hne]

/-- Witness for C7: a mismatched echoed state is rejected without
touching users or session. -/
theorem C7_witness :
    google_callback []
        { user_id := none, username := none, oauth_state := some "abc", chat := none }
        "xyz" { email_verified := true, email := "e@x.com", name := none }
      = ([],
         { user_id := none, username := none, oauth_state := some "abc", chat := none },
         CallbackResult.stateRejected) :=
  C7_callback_state_check _ _ _ _ (Or.inr (by decide))

/-- The exact out-of-range condition of the download guards: transcript
absent, or empty, or a negative index, or an index at or past the
length. -/
def dlOutOfRange (s : SessionState) (idx : Int) : Prop :=
  match s.chat with
  | none => True
  | some chat => chat = [] ∨ idx < 0 ∨ (chat.length : Int) ≤ idx

theorem dlGuard_iff (chat : List ChatTurn) (idx : Int) :
    (chat.isEmpty || decide (idx < 0) || decide ((chat.length : Int) ≤ idx)) = true
      ↔ (chat = [] ∨ idx < 0 ∨ (chat.length : Int) ≤ idx) := by
  simp [List.isEmpty_iff, or_assoc]

/-- C8: both download routes answer 404 exactly on the out-of-range
condition, and on every in-range index they answer an attachment built
from the text of the turn at that index; the handlers are total, so
out-of-range access cannot crash. -/
theorem C8_download_index_bounds (s : SessionState) (idx : Int) :
    (download_txt_by_index s idx = .notFound ↔ dlOutOfRange s idx)
    ∧ (download_pdf_by_index s idx = .notFound ↔ dlOutOfRange s idx)
    ∧ (∀ chat t, s.chat = some chat → chat.get? idx.toNat = some t →
        ¬ dlOutOfRange s idx →
        download_txt_by_index s idx
          = .fileAttachment t.text "prompt_output.txt" "text/plain"
        ∧ download_pdf_by_index s idx
          = .fileAttachment (t.text.replace "\n" "<br/>")
              "prompt_output.pdf" "application/pdf") := by
  cases hc : s.chat with
  | none =>
    refine ⟨?_, ?_, ?_⟩
    · simp [download_txt_by_index, dlOutOfRange, hc]
    · simp [download_pdf_by_index, dlOutOfRange, hc]
    · intro chat t hc' _ _
      simp at hc'
  | some chat =>
    by_cases hg : chat = [] ∨ idx < 0 ∨ (chat.length : Int) ≤ idx
    · have hb : (chat.isEmpty || decide (idx < 0)
          || decide ((chat.length : Int) ≤ idx)) = true := (dlGuard_iff chat idx).mpr hg
      refine ⟨?_, ?_, ?_⟩
      · simp [download_txt_by_index, hc, hb, dlOutOfRange, hg]
      · simp [download_pdf_by_index, hc, hb, dlOutOfRange, hg]
      · intro chat' t hc' _ hnot
        exact absurd (by simpa [dlOutOfRange, hc] using hg) hnot
    · have hb : (chat.isEmpty || decide (idx < 0)
          || decide ((chat.length : Int) ≤ idx)) = false := by
        rw [Bool.eq_false_iff]
        intro h
        exact hg ((dlGuard_iff chat idx).mp h)
      refine ⟨?_, ?_, ?_⟩
      · simp [download_txt_by_index, hc, hb, dlOutOfRange, hg]
      · simp [download_pdf_by_index, hc, hb, dlOutOfRange, hg]
      · intro chat' t hc' ht _
        injection hc' with h
        subst h
        rw [List.get?_eq_getElem?] at ht
        constructor
        · simp [download_txt_by_index, hc, hb, ht]
        · simp [download_pdf_by_index, hc, hb, ht]

/-- Witness for C8 at a one-turn transcript and index 0. -/
theorem C8_witness :
    download_txt_by_index
        { user_id := some "u1", username := some "alice", oauth_state := none,
          chat := some [greetingTurn] } 0
      = HttpResponse.fileAttachment greetingText "prompt_output.txt" "text/plain" :=
  ((C8_download_index_bounds
      { user_id := some "u1", username := some "alice", oauth_state := none,
        chat := some [greetingTurn] } 0).2.2
    [greetingTurn] greetingTurn rfl rfl
    (by simp [dlOutOfRange])).1

/-- The disjunction of the three password-login failure shapes, phrased
as what the handler actually finds: no user under the trimmed email, a
user without a stored password, or a failing hash comparison. -/
def passwordLoginFails (checkHash : String → String → Bool) (users : List UserRec)
    (email password : String) : Prop :=
  match users.find? (fun u => u.email == pyStrip email) with
  | none => True
  | some u =>
    match u.password with
    | none => True
    | some pw => checkHash pw (pyStrip password) = false

theorem login_fails_uniform (checkHash : String → String → Bool)
    (users : List UserRec) (s : SessionState) (email password : String)
    (hanon : s.user_id = none)
    (hf : passwordLoginFails checkHash users email password) :
    login checkHash users s email password = (s, .invalid) := by
  unfold login
  cases hfind : users.find? (fun u => u.email == pyStrip email) with
  | none => simp [hanon, hfind]
  | some u =>
    cases hpw : u.password with
    | none => simp [hanon, hfind, hpw]
    | some pw =>
      have hch : checkHash pw (pyStrip password) = false := by
        simpa [passwordLoginFails, hfind, hpw] using hf
      simp [hanon, hfind, hpw, hch]

/-- C9: any two password-login attempts in any of the three failure
shapes (unknown email, password-less account, failing hash comparison)
produce the same observable outcome — the uniform invalid result with the
session left exactly as it was — so the caller cannot tell the shapes
apart. -/
theorem C9_login_failure_indistinguishable
    (ch1 ch2 : String → String → Bool) (users1 users2 : List UserRec)
    (s : SessionState) (e1 p1 e2 p2 : String)
    (hanon : s.user_id = none)
    (hf1 : passwordLoginFails ch1 users1 e1 p1)
    (hf2 : passwordLoginFails ch2 users2 e2 p2) :
    login ch1 users1 s e1 p1 = (s, .invalid)
    ∧ login ch1 users1 s e1 p1 = login ch2 users2 s e2 p2 := by
  have h1 := login_fails_uniform ch1 users1 s e1 p1 hanon hf1
  have h2 := login_fails_uniform ch2 users2 s e2 p2 hanon hf2
  exact ⟨h1, h1.trans h2.symm⟩

/-- Witness for C9: an unknown email and an OAuth-only account yield the
very same observable failure. -/
theorem C9_witness :
    login (fun _ _ => false) [] emptySession "ghost@x.com" "p"
      = (emptySession, LoginResult.invalid) :=
  (C9_login_failure_indistinguishable (fun _ _ => false) (fun _ _ => false)
      [] [{ username := "bob", email := "b@x.com", password := none }]
      emptySession "ghost@x.com" "p" "b@x.com" "p" rfl
      (by trivial) (by trivial)).1

end PromptGen
